import Mathlib

/-!
Shallow embedding of src/luigiscripts/wikipedia-luigi.py: a four-task luigi
ETL pipeline (extract, transform, copy-to-Redshift, cluster shutdown).
Pure methods of the Python classes become Lean functions over structures
whose fields are the luigi parameters of the class.  The external constant
mortartask.NUM_REDUCE_SLOTS_PER_MACHINE is passed as an explicit argument.
Configuration reads are instrumented: functions that call
configuration.get_config().get(...) return their value together with the
list of (section, key) pairs read, so that read-once claims are checkable.
-/

/-- Helper from the source: returns the two pieces joined by a slash. -/
def create_full_path (base_path sub_path : String) : String :=
  base_path ++ "/" ++ sub_path

/-- Target over a durable S3 location, identified by its path string. -/
structure S3Target where
  path : String
deriving DecidableEq, Repr

/-- Parameter values passed to a pigscript: strings or integers. -/
inductive ParamValue where
  | str : String → ParamValue
  | int : Int → ParamValue
deriving DecidableEq, Repr

/-- Base-class method: default_parallel = (cluster_size - 1) * NUM_REDUCE_SLOTS_PER_MACHINE. -/
def WikipediaETLPigscriptTask.default_parallel
    (cluster_size NUM_REDUCE_SLOTS_PER_MACHINE : Int) : Int :=
  (cluster_size - 1) * NUM_REDUCE_SLOTS_PER_MACHINE

/-- Base-class method: number_of_files = 2 * (cluster_size - 1) * NUM_REDUCE_SLOTS_PER_MACHINE. -/
def WikipediaETLPigscriptTask.number_of_files
    (cluster_size NUM_REDUCE_SLOTS_PER_MACHINE : Int) : Int :=
  2 * (cluster_size - 1) * NUM_REDUCE_SLOTS_PER_MACHINE

/-- Parameters of ExtractWikipediaDataTask (cluster_size from the mortar base class). -/
structure ExtractWikipediaDataTask where
  cluster_size : Int
  input_base_path : String
  output_base_path : String
deriving DecidableEq, Repr

/-- Parameters of TransformWikipediaDataTask. -/
structure TransformWikipediaDataTask where
  cluster_size : Int
  input_base_path : String
  output_base_path : String
deriving DecidableEq, Repr

/-- Parameters of CopyToRedshiftTask, in declaration order of the source. -/
structure CopyToRedshiftTask where
  table_name : String
  output_base_path : String
  input_base_path : String
deriving DecidableEq, Repr

/-- Parameters of ShutdownClusters, in declaration order of the source. -/
structure ShutdownClusters where
  input_base_path : String
  table_name : String
  output_base_path : String
deriving DecidableEq, Repr

/-- Extract declares one S3 target at output_base_path/extract. -/
def ExtractWikipediaDataTask.script_output (t : ExtractWikipediaDataTask) : List S3Target :=
  [⟨create_full_path t.output_base_path "extract"⟩]

/-- Extract passes OUTPUT_PATH and INPUT_PATH to the pigscript. -/
def ExtractWikipediaDataTask.parameters (t : ExtractWikipediaDataTask) :
    List (String × ParamValue) :=
  [("OUTPUT_PATH", ParamValue.str t.output_base_path),
   ("INPUT_PATH", ParamValue.str t.input_base_path)]

/-- Extract runs the script 01-wiki-extract-data.pig. -/
def ExtractWikipediaDataTask.script (_ : ExtractWikipediaDataTask) : String :=
  "01-wiki-extract-data.pig"

/-- Override on TransformWikipediaDataTask: number of files to split the output into. -/
def TransformWikipediaDataTask.number_of_files
    (t : TransformWikipediaDataTask) (NUM_REDUCE_SLOTS_PER_MACHINE : Int) : Int :=
  2 * (t.cluster_size - 1) * NUM_REDUCE_SLOTS_PER_MACHINE

/-- Transform declares one S3 target at output_base_path/transform. -/
def TransformWikipediaDataTask.script_output (t : TransformWikipediaDataTask) : List S3Target :=
  [⟨create_full_path t.output_base_path "transform"⟩]

/-- Transform passes OUTPUT_PATH, INPUT_PATH and REDSHIFT_PARALLELIZATION. -/
def TransformWikipediaDataTask.parameters
    (t : TransformWikipediaDataTask) (NUM_REDUCE_SLOTS_PER_MACHINE : Int) :
    List (String × ParamValue) :=
  [("OUTPUT_PATH", ParamValue.str t.output_base_path),
   ("INPUT_PATH", ParamValue.str t.input_base_path),
   ("REDSHIFT_PARALLELIZATION",
     ParamValue.int (t.number_of_files NUM_REDUCE_SLOTS_PER_MACHINE))]

/-- Transform runs the script 02-wiki-transform-data.pig. -/
def TransformWikipediaDataTask.script (_ : TransformWikipediaDataTask) : String :=
  "02-wiki-transform-data.pig"

/-- Transform requires Extract with the same cluster_size and both base paths. -/
def TransformWikipediaDataTask.requires (t : TransformWikipediaDataTask) :
    ExtractWikipediaDataTask :=
  ⟨t.cluster_size, t.input_base_path, t.output_base_path⟩

/-- Fixed column schema of CopyToRedshiftTask (a class attribute in the source). -/
def CopyToRedshiftTask.columns : List (String × String) :=
  [("wiki_code", "text"),
   ("language", "text"),
   ("wiki_type", "text"),
   ("article", "varchar(max)"),
   ("day", "int"),
   ("hour", "int"),
   ("pageviews", "int"),
   ("PRIMARY KEY", "(article, day, hour)")]

/-- Copy requires Transform with the hard-coded cluster_size = 5 and both base paths. -/
def CopyToRedshiftTask.requires (t : CopyToRedshiftTask) : TransformWikipediaDataTask :=
  ⟨5, t.input_base_path, t.output_base_path⟩

/-- The warehouse credential record returned by redshift_credentials. -/
structure RedshiftCredentials where
  host : String
  port : String
  database : String
  username : String
  password : String
  aws_access_key_id : String
  aws_secret_access_key : String
deriving DecidableEq, Repr

/-- One configuration read: config.get(sec, key), returning the value
together with the singleton trace of (section, key) pairs read. -/
def config_get (cfg : String → String → String) (sec key : String) :
    String × List (String × String) :=
  (cfg sec key, [(sec, key)])

/-- redshift_credentials reads all seven keys of the redshift section on
every call; the second component is the trace of configuration reads. -/
def CopyToRedshiftTask.redshift_credentials (cfg : String → String → String) :
    RedshiftCredentials × List (String × String) :=
  let h := config_get cfg "redshift" "host"
  let p := config_get cfg "redshift" "port"
  let d := config_get cfg "redshift" "database"
  let u := config_get cfg "redshift" "username"
  let pw := config_get cfg "redshift" "password"
  let ak := config_get cfg "redshift" "aws_access_key_id"
  let sk := config_get cfg "redshift" "aws_secret_access_key"
  (⟨h.1, p.1, d.1, u.1, pw.1, ak.1, sk.1⟩,
   h.2 ++ p.2 ++ d.2 ++ u.2 ++ pw.2 ++ ak.2 ++ sk.2)

/-- transform_path = output_base_path/transform. -/
def CopyToRedshiftTask.transform_path (t : CopyToRedshiftTask) : String :=
  create_full_path t.output_base_path "transform"

/-- s3_load_path: load all part files produced by the transform step. -/
def CopyToRedshiftTask.s3_load_path (t : CopyToRedshiftTask) : String :=
  create_full_path t.transform_path "part"

/-- Property aws_access_key_id: one redshift_credentials call per access. -/
def CopyToRedshiftTask.aws_access_key_id (cfg : String → String → String) :
    String × List (String × String) :=
  let c := CopyToRedshiftTask.redshift_credentials cfg
  (c.1.aws_access_key_id, c.2)

/-- Property aws_secret_access_key: one redshift_credentials call per access. -/
def CopyToRedshiftTask.aws_secret_access_key (cfg : String → String → String) :
    String × List (String × String) :=
  let c := CopyToRedshiftTask.redshift_credentials cfg
  (c.1.aws_secret_access_key, c.2)

/-- Property database: one redshift_credentials call per access. -/
def CopyToRedshiftTask.database (cfg : String → String → String) :
    String × List (String × String) :=
  let c := CopyToRedshiftTask.redshift_credentials cfg
  (c.1.database, c.2)

/-- Property user: one redshift_credentials call per access. -/
def CopyToRedshiftTask.user (cfg : String → String → String) :
    String × List (String × String) :=
  let c := CopyToRedshiftTask.redshift_credentials cfg
  (c.1.username, c.2)

/-- Property password: one redshift_credentials call per access. -/
def CopyToRedshiftTask.password (cfg : String → String → String) :
    String × List (String × String) :=
  let c := CopyToRedshiftTask.redshift_credentials cfg
  (c.1.password, c.2)

/-- Property host: joins host and port with a colon, calling
redshift_credentials twice, hence reading the configuration twice. -/
def CopyToRedshiftTask.host (cfg : String → String → String) :
    String × List (String × String) :=
  let c1 := CopyToRedshiftTask.redshift_credentials cfg
  let c2 := CopyToRedshiftTask.redshift_credentials cfg
  (c1.1.host ++ ":" ++ c2.1.port, c1.2 ++ c2.2)

/-- Property table: returns the table_name parameter. -/
def CopyToRedshiftTask.table (t : CopyToRedshiftTask) : String :=
  t.table_name

/-- Property copy_options. -/
def CopyToRedshiftTask.copy_options (_ : CopyToRedshiftTask) : String :=
  "GZIP"

/-- Configuration reads performed while constructing a task: luigi task
construction only binds the declared parameters, and nothing in the class
bodies of the source touches the configuration outside
redshift_credentials, so construction reads no configuration at all. -/
def CopyToRedshiftTask.construction_reads : List (String × String) :=
  []

/-- Shutdown requires the single CopyToRedshiftTask with all three parameters. -/
def ShutdownClusters.requires (t : ShutdownClusters) : List CopyToRedshiftTask :=
  [⟨t.table_name, t.output_base_path, t.input_base_path⟩]

/-- Shutdown declares one S3 target at output_base_path/ShutdownClusters
(the class name of ShutdownClusters). -/
def ShutdownClusters.output (t : ShutdownClusters) : List S3Target :=
  [⟨create_full_path t.output_base_path "ShutdownClusters"⟩]

/-- A node of the pipeline dependency graph: one of the four task classes. -/
inductive PipelineTask where
  | extract (t : ExtractWikipediaDataTask)
  | transform (t : TransformWikipediaDataTask)
  | copy (t : CopyToRedshiftTask)
  | shutdown (t : ShutdownClusters)
deriving DecidableEq, Repr

/-- Dependencies of each node, from the requires methods of the source.
ExtractWikipediaDataTask defines no requires, so it has the engine default
of no dependencies. -/
def PipelineTask.requires : PipelineTask → List PipelineTask
  | .extract _ => []
  | .transform t => [.extract t.requires]
  | .copy t => [.transform t.requires]
  | .shutdown t => t.requires.map .copy

/-- Per-task outcome of one Executor run. -/
inductive ExecutionResult where
  | pending
  | skipped
  | succeeded
  | failed (cause : String)
deriving DecidableEq, Repr

/-- Modelled from the spec: the Graph Builder (depth-first traversal from
the root, visited nodes recorded by identity, dependencies strictly before
dependents, ties broken by first-discovery order).  The engine itself is
the third-party luigi library, absent from the source tree; fuel bounds
the recursion depth. -/
def topoVisit : Nat → PipelineTask → List PipelineTask → List PipelineTask
  | 0, _, visited => visited
  | fuel + 1, t, visited =>
    if t ∈ visited then visited
    else
      let visited2 := t.requires.foldl (fun acc d => topoVisit fuel d acc) visited
      if t ∈ visited2 then visited2 else visited2 ++ [t]

/-- Modelled from the spec: the stable topological order of the graph
rooted at a ShutdownClusters task (the pipeline has depth four). -/
def executionOrder (root : ShutdownClusters) : List PipelineTask :=
  topoVisit 4 (.shutdown root) []

/-- Modelled from the spec: the Executor run with no pre-existing Targets
and all external actions succeeding runs the tasks in topological order,
each exactly once, and every task Succeeds. -/
def executeGraph (g : List PipelineTask) : List (PipelineTask × ExecutionResult) :=
  g.map fun t => (t, ExecutionResult.succeeded)

/-- input_base_path carried by a graph node. -/
def PipelineTask.input_base_path : PipelineTask → String
  | .extract t => t.input_base_path
  | .transform t => t.input_base_path
  | .copy t => t.input_base_path
  | .shutdown t => t.input_base_path

/-- output_base_path carried by a graph node. -/
def PipelineTask.output_base_path : PipelineTask → String
  | .extract t => t.output_base_path
  | .transform t => t.output_base_path
  | .copy t => t.output_base_path
  | .shutdown t => t.output_base_path

/-- Claim C9: number_of_files equals 2 * default_parallel on the base class. -/
theorem number_of_files_eq_twice_default_parallel
    (cluster_size NUM_REDUCE_SLOTS_PER_MACHINE : Int) :
    WikipediaETLPigscriptTask.number_of_files cluster_size NUM_REDUCE_SLOTS_PER_MACHINE =
      2 * WikipediaETLPigscriptTask.default_parallel cluster_size NUM_REDUCE_SLOTS_PER_MACHINE := by
  unfold WikipediaETLPigscriptTask.number_of_files WikipediaETLPigscriptTask.default_parallel
  ring

/-- Claim C3: the override of number_of_files on TransformWikipediaDataTask
computes the same value as the base-class definition, both equal to
2 * (cluster_size - 1) * NUM_REDUCE_SLOTS_PER_MACHINE. -/
theorem number_of_files_override_redundant
    (cs n : Int) (i o : String) :
    TransformWikipediaDataTask.number_of_files ⟨cs, i, o⟩ n =
        WikipediaETLPigscriptTask.number_of_files cs n ∧
      WikipediaETLPigscriptTask.number_of_files cs n = 2 * (cs - 1) * n := by
  exact ⟨rfl, rfl⟩

/-- Helper: the topological order of the graph rooted at any
ShutdownClusters task is the four-element chain. -/
theorem executionOrder_eq (i o tn : String) :
    executionOrder ⟨i, tn, o⟩ =
      [.extract ⟨5, i, o⟩, .transform ⟨5, i, o⟩, .copy ⟨tn, o, i⟩, .shutdown ⟨i, tn, o⟩] := by
  simp [executionOrder, topoVisit, PipelineTask.requires,
        ShutdownClusters.requires, CopyToRedshiftTask.requires,
        TransformWikipediaDataTask.requires]

/-- Claim C1: the dependency graph rooted at ShutdownClusters is the linear
chain Shutdown -> Copy -> Transform -> Extract (each requires exactly its
one predecessor, Extract has none), and with no pre-existing targets the
four tasks run in the order Extract, Transform, Copy, Shutdown, each
exactly once, all Succeeded. -/
theorem pipeline_chain_and_run_order (i o tn : String) :
    PipelineTask.requires (.shutdown ⟨i, tn, o⟩) = [.copy ⟨tn, o, i⟩] ∧
    PipelineTask.requires (.copy ⟨tn, o, i⟩) = [.transform ⟨5, i, o⟩] ∧
    PipelineTask.requires (.transform ⟨5, i, o⟩) = [.extract ⟨5, i, o⟩] ∧
    PipelineTask.requires (.extract ⟨5, i, o⟩) = [] ∧
    executeGraph (executionOrder ⟨i, tn, o⟩) =
      [(.extract ⟨5, i, o⟩, .succeeded),
       (.transform ⟨5, i, o⟩, .succeeded),
       (.copy ⟨tn, o, i⟩, .succeeded),
       (.shutdown ⟨i, tn, o⟩, .succeeded)] := by
  refine ⟨rfl, rfl, rfl, rfl, ?_⟩
  rw [executionOrder_eq]
  rfl

/-- Claim C2 counterexample: with a supplied cluster-size value of 3, the
Transform task in the graph (and the Extract task it requires) carries
cluster_size 5, not 3: CopyToRedshiftTask.requires hard-codes 5, and the
root ShutdownClusters has no cluster-size parameter at all. -/
theorem cli_cluster_size_not_propagated :
    (CopyToRedshiftTask.requires ⟨"pageviews", "s3://b/wiki", "s3://in"⟩).cluster_size = 5 ∧
    ((CopyToRedshiftTask.requires ⟨"pageviews", "s3://b/wiki", "s3://in"⟩).requires).cluster_size
      = 5 ∧
    ¬ (CopyToRedshiftTask.requires ⟨"pageviews", "s3://b/wiki", "s3://in"⟩).cluster_size = 3 := by
  refine ⟨rfl, rfl, ?_⟩
  decide

/-- Claim C2 amended: the root ShutdownClusters task has no cluster-size
parameter; CopyToRedshiftTask.requires builds Transform with the fixed
cluster_size 5, which Transform passes to Extract, so for every parameter
assignment the cluster sizing used by Extract and Transform is 5,
independent of any value supplied to the CLI. -/
theorem cluster_size_fixed_at_five (i o tn : String) :
    ShutdownClusters.requires ⟨i, tn, o⟩ = [⟨tn, o, i⟩] ∧
    (CopyToRedshiftTask.requires ⟨tn, o, i⟩).cluster_size = 5 ∧
    ((CopyToRedshiftTask.requires ⟨tn, o, i⟩).requires).cluster_size = 5 :=
  ⟨rfl, rfl, rfl⟩

/-- Claim C4: the load step consumes the transform output: s3_load_path
equals the location of the single declared transform target with /part
appended, namely output_base_path/transform/part. -/
theorem s3_load_path_consumes_transform_output (obp tn ibp i : String) (cs : Int) :
    TransformWikipediaDataTask.script_output ⟨cs, i, obp⟩ =
      [⟨create_full_path obp "transform"⟩] ∧
    CopyToRedshiftTask.s3_load_path ⟨tn, obp, ibp⟩ =
      create_full_path obp "transform" ++ "/part" ∧
    CopyToRedshiftTask.s3_load_path ⟨tn, obp, ibp⟩ = obp ++ "/transform/part" := by
  refine ⟨rfl, ?_, ?_⟩
  · show obp ++ "/" ++ "transform" ++ "/" ++ "part" = obp ++ "/" ++ "transform" ++ "/part"
    rw [String.append_assoc (obp ++ "/" ++ "transform")]
    rfl
  · show obp ++ "/" ++ "transform" ++ "/" ++ "part" = obp ++ "/transform/part"
    rw [String.append_assoc, String.append_assoc, String.append_assoc]
    rfl

/-- Claim C5 counterexample: the configuration is not read once at Task
construction — construction reads nothing, while a single access of the
host property reads the configuration 14 times (two full
redshift_credentials calls of seven keys each). -/
theorem config_reread_on_host_access :
    CopyToRedshiftTask.construction_reads.length = 0 ∧
    ((CopyToRedshiftTask.host (fun _ _ => "v")).2).length = 14 ∧
    (CopyToRedshiftTask.host (fun _ _ => "v")).2 ≠ [] := by
  refine ⟨rfl, rfl, ?_⟩
  decide

/-- Claim C5 amended: the warehouse configuration is read not at Task
construction (which reads nothing) but on every property access: each
credential property access performs one redshift_credentials call reading
all seven keys, and each host access performs two such calls. -/
theorem config_read_on_every_access (cfg : String → String → String) :
    CopyToRedshiftTask.construction_reads = [] ∧
    (CopyToRedshiftTask.redshift_credentials cfg).2.length = 7 ∧
    (CopyToRedshiftTask.host cfg).2 =
      (CopyToRedshiftTask.redshift_credentials cfg).2 ++
        (CopyToRedshiftTask.redshift_credentials cfg).2 ∧
    (CopyToRedshiftTask.database cfg).2 = (CopyToRedshiftTask.redshift_credentials cfg).2 ∧
    (CopyToRedshiftTask.user cfg).2 = (CopyToRedshiftTask.redshift_credentials cfg).2 ∧
    (CopyToRedshiftTask.password cfg).2 = (CopyToRedshiftTask.redshift_credentials cfg).2 ∧
    (CopyToRedshiftTask.aws_access_key_id cfg).2 =
      (CopyToRedshiftTask.redshift_credentials cfg).2 ∧
    (CopyToRedshiftTask.aws_secret_access_key cfg).2 =
      (CopyToRedshiftTask.redshift_credentials cfg).2 :=
  ⟨rfl, rfl, rfl, rfl, rfl, rfl, rfl, rfl⟩

/-- Claim C6: the bulk-load invocation supplies table = table_name, the
fixed eight-entry column schema, the source location s3_load_path
(the transform output location with /part appended), and the credential
set read from the configuration source, for every parameter assignment. -/
theorem copy_bulk_load_arguments (tn obp ibp : String) (cfg : String → String → String) :
    CopyToRedshiftTask.table ⟨tn, obp, ibp⟩ = tn ∧
    CopyToRedshiftTask.columns =
      [("wiki_code", "text"), ("language", "text"), ("wiki_type", "text"),
       ("article", "varchar(max)"), ("day", "int"), ("hour", "int"),
       ("pageviews", "int"), ("PRIMARY KEY", "(article, day, hour)")] ∧
    CopyToRedshiftTask.s3_load_path ⟨tn, obp, ibp⟩ =
      create_full_path (create_full_path obp "transform") "part" ∧
    (CopyToRedshiftTask.redshift_credentials cfg).1 =
      ⟨cfg "redshift" "host", cfg "redshift" "port", cfg "redshift" "database",
       cfg "redshift" "username", cfg "redshift" "password",
       cfg "redshift" "aws_access_key_id", cfg "redshift" "aws_secret_access_key"⟩ :=
  ⟨rfl, rfl, rfl, rfl⟩

/-- Claim C7: Extract invokes 01-wiki-extract-data.pig with OUTPUT_PATH
and INPUT_PATH; Transform invokes 02-wiki-transform-data.pig with those
two parameters plus REDSHIFT_PARALLELIZATION = number_of_files, for every
input_base_path, output_base_path and cluster_size. -/
theorem pigscript_invocations (i o : String) (cs n : Int) :
    ExtractWikipediaDataTask.script ⟨cs, i, o⟩ = "01-wiki-extract-data.pig" ∧
    ExtractWikipediaDataTask.parameters ⟨cs, i, o⟩ =
      [("OUTPUT_PATH", ParamValue.str o), ("INPUT_PATH", ParamValue.str i)] ∧
    TransformWikipediaDataTask.script ⟨cs, i, o⟩ = "02-wiki-transform-data.pig" ∧
    TransformWikipediaDataTask.parameters ⟨cs, i, o⟩ n =
      [("OUTPUT_PATH", ParamValue.str o), ("INPUT_PATH", ParamValue.str i),
       ("REDSHIFT_PARALLELIZATION",
         ParamValue.int (TransformWikipediaDataTask.number_of_files ⟨cs, i, o⟩ n))] :=
  ⟨rfl, rfl, rfl, rfl⟩

/-- Claim C8: each task with a declared output in the source declares a
single S3 target as a function of output_base_path: Extract at
output_base_path/extract, Transform at output_base_path/transform, and
ShutdownClusters at output_base_path/ShutdownClusters (its class name). -/
theorem declared_targets (obp i tn : String) (cs : Int) :
    ExtractWikipediaDataTask.script_output ⟨cs, i, obp⟩ = [⟨obp ++ "/extract"⟩] ∧
    TransformWikipediaDataTask.script_output ⟨cs, i, obp⟩ = [⟨obp ++ "/transform"⟩] ∧
    ShutdownClusters.output ⟨i, tn, obp⟩ = [⟨obp ++ "/ShutdownClusters"⟩] := by
  refine ⟨?_, ?_, ?_⟩
  · show [S3Target.mk (obp ++ "/" ++ "extract")] = _
    rw [String.append_assoc]
    rfl
  · show [S3Target.mk (obp ++ "/" ++ "transform")] = _
    rw [String.append_assoc]
    rfl
  · show [S3Target.mk (obp ++ "/" ++ "ShutdownClusters")] = _
    rw [String.append_assoc]
    rfl

/-- Claim C10: every task in the graph built from
ShutdownClusters(input_base_path = i, table_name = t, output_base_path = o)
carries input_base_path = i and output_base_path = o unchanged. -/
theorem base_paths_propagate (i o tn : String) :
    ∀ tk ∈ executionOrder ⟨i, tn, o⟩,
      tk.input_base_path = i ∧ tk.output_base_path = o := by
  intro tk htk
  rw [executionOrder_eq] at htk
  simp only [List.mem_cons, List.not_mem_nil, or_false] at htk
  rcases htk with h | h | h | h <;> subst h <;> exact ⟨rfl, rfl⟩

/-- Witness for claim C10 at concrete parameters and the extract node. -/
theorem base_paths_propagate_witness :
    (PipelineTask.extract ⟨5, "s3://in", "s3://out"⟩).input_base_path = "s3://in" ∧
    (PipelineTask.extract ⟨5, "s3://in", "s3://out"⟩).output_base_path = "s3://out" :=
  base_paths_propagate "s3://in" "s3://out" "pageviews"
    (PipelineTask.extract ⟨5, "s3://in", "s3://out"⟩)
    (by rw [executionOrder_eq]; exact List.mem_cons_self _ _)
